import Mathlib

/-!
Shallow embedding of the MPG goal-reconstruction engine
(source file: `mpg_goal_engine.py`).

Ratings are embedded as rationals; goal counters held by the engine are
integers (Python `int`), while the raw payload's goal counts are naturals.
Python dicts keyed by strings are embedded as association lists looked up
by first match, preserving insertion order; a Python set of player ids is
an insertion-ordered duplicate-free list.
-/

-- ── Constants ──────────────────────────────────────────────────────────

def POSITION_GK : Nat := 1
def POSITION_DEF : Nat := 2
def POSITION_MID : Nat := 3
def POSITION_FWD : Nat := 4

/-- Python `LINES_BY_POS.get(pos, [])`: ordered opposing lines to cross. -/
def LINES_BY_POS (pos : Nat) : List String :=
  if pos = POSITION_FWD then ["def", "gk"]
  else if pos = POSITION_MID then ["mid", "def", "gk"]
  else if pos = POSITION_DEF then ["fwd", "mid", "def", "gk"]
  else []

-- ── Data structures ────────────────────────────────────────────────────

/-- The `PlayerSlot` dataclass. -/
structure PlayerSlot where
  slot : Nat
  player_id : String
  position : Nat
  rating : ℚ
  bonus_rating : ℚ
  goals_real : Nat
  mpg_goals : Nat := 0
  last_name : String := ""
  is_sub : Option String := none
deriving DecidableEq, Repr

def PlayerSlot.effective_rating (p : PlayerSlot) : ℚ :=
  p.rating + p.bonus_rating

def PlayerSlot.eligible_for_virtual (p : PlayerSlot) : Bool :=
  (p.goals_real == 0) && (p.position != POSITION_GK)
    && decide ((5 : ℚ) ≤ p.effective_rating)

/-- The `LineAverages` dataclass (`def` is a Python keyword, hence `def_`). -/
structure LineAverages where
  gk : ℚ := 5
  fwd : ℚ := 5
  mid : ℚ := 5
  def_ : ℚ := 5
deriving DecidableEq, Repr

/-- Dictionary lookup `{"gk":…, "fwd":…, "mid":…, "def":…}[line]`;
only ever called with one of the four keys. -/
def LineAverages.get (la : LineAverages) (line : String) : ℚ :=
  if line = "gk" then la.gk
  else if line = "fwd" then la.fwd
  else if line = "mid" then la.mid
  else la.def_

/-- The `TeamSimResult` dataclass. -/
structure TeamSimResult where
  real_goals : ℤ := 0
  virtual_goals : ℤ := 0
  own_goals : ℤ := 0
  virtual_scorers : List String := []
  virtual_scorer_pids : List String := []
  remove_goal_applied : Bool := false
  remove_goal_target : Option String := none
deriving DecidableEq, Repr

def TeamSimResult.total_goals (r : TeamSimResult) : ℤ :=
  r.real_goals + r.virtual_goals + r.own_goals

/-- The `MatchSimResult` dataclass. -/
structure MatchSimResult where
  home : TeamSimResult := {}
  away : TeamSimResult := {}
  home_score_actual : Option ℚ := none
  away_score_actual : Option ℚ := none
deriving DecidableEq, Repr

-- ── Raw payload model ──────────────────────────────────────────────────

/-- One entry of a team's `players` map in the raw JSON payload. -/
structure PlayerInfo where
  playerId : Option String := none
  position : Nat := 0
  rating : Option ℚ := none
  bonusRating : ℚ := 0
  goals : Nat := 0
  canceledGoal : Nat := 0
  mpgGoals : Nat := 0
  ownGoals : Nat := 0
  lastName : String := ""
deriving DecidableEq, Repr

/-- One entry of `playersOnPitch` (keyed in JSON by the slot string). -/
structure PitchSlot where
  slot : Nat
  playerId : Option String := none
  isSub : Option String := none
deriving DecidableEq, Repr

/-- One bonus payload.  For the `mirror` bonus, a nested `removeGoal`
sub-entry is flattened to `removeGoalPlayerId`: `some pid?` means the
sub-entry exists and its `playerId` field is `pid?`. -/
structure BonusInfo where
  playerId : Option String := none
  isCanceled : Bool := false
  bonusRating : Option ℚ := none
  removeGoalPlayerId : Option (Option String) := none
deriving DecidableEq, Repr

/-- A team's sub-payload of the match record. -/
structure TeamData where
  players : List (String × PlayerInfo) := []
  playersOnPitch : List PitchSlot := []
  bonuses : List (String × BonusInfo) := []
  score : Option ℚ := none
deriving DecidableEq, Repr

/-- The match payload (`data` after `json.loads`). -/
structure MatchData where
  home : TeamData := {}
  away : TeamData := {}
deriving DecidableEq, Repr

inductive Side where
  | home
  | away
deriving DecidableEq, Repr

def Side.opp : Side → Side
  | Side.home => Side.away
  | Side.away => Side.home

def MatchData.team (data : MatchData) : Side → TeamData
  | Side.home => data.home
  | Side.away => data.away

def set_team (data : MatchData) (side : Side) (t : TeamData) : MatchData :=
  match side with
  | Side.home => { data with home := t }
  | Side.away => { data with away := t }

/-- Dict lookup by key, first match wins (dict keys are unique). -/
def lookupKey {α : Type} : List (String × α) → String → Option α
  | [], _ => none
  | (k2, v) :: rest, k => if k2 = k then some v else lookupKey rest k

/-- Python truthiness of an optional string (`if not pid: …`):
`None` and the empty string are falsy. -/
def strVal : Option String → Option String
  | some s => if s = "" then none else some s
  | none => none

-- ── Parsing (`_parse_team_starters`, `_compute_line_averages`, …) ──────

/-- Body of the loop of `_parse_team_starters` for one pitch entry. -/
def pitch_to_slot (players : List (String × PlayerInfo)) (info : PitchSlot) :
    Option PlayerSlot :=
  if info.slot > 11 then none
  else
    match strVal info.playerId with
    | none => none
    | some pid =>
      let p := (lookupKey players pid).getD {}
      match p.rating with
      | none => none
      | some r =>
        some { slot := info.slot, player_id := pid, position := p.position,
               rating := r, bonus_rating := p.bonusRating,
               goals_real := p.goals + p.canceledGoal,
               mpg_goals := p.mpgGoals, last_name := p.lastName,
               is_sub := info.isSub }

/-- Stable insertion into a list already sorted by slot. -/
def insert_by_slot (p : PlayerSlot) : List PlayerSlot → List PlayerSlot
  | [] => [p]
  | q :: rest => if q.slot ≤ p.slot then q :: insert_by_slot p rest
                 else p :: q :: rest

/-- Python `sorted(starters, key=lambda s: s.slot)` (stable, ascending). -/
def sort_by_slot (l : List PlayerSlot) : List PlayerSlot :=
  l.foldl (fun acc p => insert_by_slot p acc) []

def parse_team_starters (t : TeamData) : List PlayerSlot :=
  sort_by_slot (t.playersOnPitch.filterMap (pitch_to_slot t.players))

/-- The list `by_pos[pos]` of `_compute_line_averages`, in list order. -/
def ratings_at (starters : List PlayerSlot) (pos : Nat) : List ℚ :=
  (starters.filter (fun p => p.position == pos)).map PlayerSlot.effective_rating

/-- The inner `avg(pos)` helper: mean of the line, `5.0` when empty. -/
def avg_line (starters : List PlayerSlot) (pos : Nat) : ℚ :=
  let vals := ratings_at starters pos
  if vals.length = 0 then 5 else vals.sum / vals.length

/-- Python `by_pos[POSITION_GK][0] if by_pos.get(POSITION_GK) else 5.0`. -/
def gk_line (starters : List PlayerSlot) : ℚ :=
  match ratings_at starters POSITION_GK with
  | [] => 5
  | x :: _ => x

def compute_line_averages (starters : List PlayerSlot) : LineAverages :=
  { gk := gk_line starters,
    def_ := avg_line starters POSITION_DEF,
    mid := avg_line starters POSITION_MID,
    fwd := avg_line starters POSITION_FWD }

/-- Python `_parse_remove_goal`: `(target player id, is_canceled)`. -/
def parse_remove_goal (bonuses : List (String × BonusInfo)) :
    Option String × Bool :=
  match lookupKey bonuses "removeGoal" with
  | none => (none, false)
  | some rg => (rg.playerId, rg.isCanceled)

/-- Python `_count_own_goals`: own goals of the opposing starters (slots 1-11)
credited to `side`. -/
def count_own_goals (data : MatchData) (side : Side) : Nat :=
  let opp := data.team side.opp
  opp.playersOnPitch.foldl
    (fun og info =>
      if info.slot > 11 then og
      else
        match strVal info.playerId with
        | none => og
        | some pid => og + ((lookupKey opp.players pid).getD {}).ownGoals)
    0

-- ── Simulation ─────────────────────────────────────────────────────────

/-- Python `_can_pass_line`: home side passes on a tie, away needs strictly more. -/
def can_pass_line (note : ℚ) (line_avg : ℚ) (is_home : Bool) : Bool :=
  if is_home then decide (note ≥ line_avg) else decide (note > line_avg)

/-- The `for i, line in enumerate(lines)` loop of `_simulate_virtual_goal`,
carrying the running index and accumulated penalty. -/
def walk_lines (note : ℚ) (opp_avgs : LineAverages) (is_home : Bool) :
    Nat → ℚ → List String → Bool
  | _, _, [] => true
  | i, penalty, line :: rest =>
    let pen : ℚ := if i = 0 then 1 else 1/2
    let avg := opp_avgs.get line
    if can_pass_line (note - penalty) avg is_home then
      walk_lines note opp_avgs is_home (i + 1) (penalty + pen) rest
    else false

def simulate_virtual_goal (player : PlayerSlot) (opp_avgs : LineAverages)
    (is_home : Bool) : Bool :=
  if player.eligible_for_virtual then
    walk_lines player.effective_rating opp_avgs is_home 0 0
      (LINES_BY_POS player.position)
  else false

/-- Python `set.add`: append the id when absent. -/
def pid_insert (l : List String) (pid : String) : List String :=
  if pid ∈ l then l else l ++ [pid]

/-- Python `p.last_name or p.player_id`. -/
def scorer_label (p : PlayerSlot) : String :=
  if p.last_name = "" then p.player_id else p.last_name

/-- Loop body of `_simulate_team_goals` for one starter. -/
def team_goals_step (opp_avgs : LineAverages) (is_home : Bool)
    (use_mpg_goals : Bool) (r : TeamSimResult) (p : PlayerSlot) :
    TeamSimResult :=
  let r := if p.goals_real > 0 then
             { r with real_goals := r.real_goals + (p.goals_real : ℤ) }
           else r
  if use_mpg_goals then
    if p.mpg_goals > 0 then
      { r with virtual_goals := r.virtual_goals + (p.mpg_goals : ℤ),
               virtual_scorer_pids := pid_insert r.virtual_scorer_pids p.player_id,
               virtual_scorers := r.virtual_scorers ++ [scorer_label p] }
    else r
  else
    if simulate_virtual_goal p opp_avgs is_home then
      { r with virtual_goals := r.virtual_goals + 1,
               virtual_scorer_pids := pid_insert r.virtual_scorer_pids p.player_id,
               virtual_scorers := r.virtual_scorers ++ [scorer_label p] }
    else r

def simulate_team_goals (att_starters : List PlayerSlot)
    (opp_avgs : LineAverages) (is_home : Bool) (use_mpg_goals : Bool) :
    TeamSimResult :=
  att_starters.foldl (team_goals_step opp_avgs is_home use_mpg_goals) {}

/-- Python `_apply_remove_goal` (returns the updated result instead of mutating). -/
def apply_remove_goal (team_result : TeamSimResult)
    (starters : List PlayerSlot) (target_pid : String) : TeamSimResult :=
  let r := { team_result with remove_goal_applied := true,
                              remove_goal_target := some target_pid }
  match starters.find? (fun p => p.player_id == target_pid) with
  | some p =>
    if p.goals_real > 0 then { r with real_goals := max 0 (r.real_goals - 1) }
    else r
  | none =>
    if target_pid ∈ r.virtual_scorer_pids then
      { r with virtual_goals := max 0 (r.virtual_goals - 1),
               virtual_scorer_pids :=
                 r.virtual_scorer_pids.filter (fun x => x ≠ target_pid) }
    else r

/-- The degraded result of `simulate_match` when a side has no valid
starter: only the recorded scores are carried. -/
def degraded_result (data : MatchData) : MatchSimResult :=
  { home_score_actual := data.home.score,
    away_score_actual := data.away.score }

/-- One conditional `removeGoal` application
(`if pid and not canceled: _apply_remove_goal(...)`). -/
def maybe_remove_goal (rg : Option String × Bool) (r : TeamSimResult)
    (starters : List PlayerSlot) : TeamSimResult :=
  match strVal rg.1, rg.2 with
  | some pid, false => apply_remove_goal r starters pid
  | _, _ => r

/-- One conditional Mirror-reflected `removeGoal` application
(`if "removeGoal" in mirror: … if reflected_pid: _apply_remove_goal`). -/
def maybe_mirror_remove_goal (mirror : BonusInfo) (r : TeamSimResult)
    (starters : List PlayerSlot) : TeamSimResult :=
  match mirror.removeGoalPlayerId with
  | none => r
  | some rpid =>
    match strVal rpid with
    | some pid => apply_remove_goal r starters pid
    | none => r

/-- Python `simulate_match(raw_json_str, use_mpg_goals)`. -/
def simulate_match (data : MatchData) (use_mpg_goals : Bool) :
    MatchSimResult :=
  let h_starters := parse_team_starters data.home
  let a_starters := parse_team_starters data.away
  if h_starters.isEmpty || a_starters.isEmpty then degraded_result data
  else
    let h_avgs := compute_line_averages h_starters
    let a_avgs := compute_line_averages a_starters
    let h_rg := parse_remove_goal data.home.bonuses
    let a_rg := parse_remove_goal data.away.bonuses
    let home_result := simulate_team_goals h_starters a_avgs true use_mpg_goals
    let away_result := simulate_team_goals a_starters h_avgs false use_mpg_goals
    let home_result := { home_result with
                         own_goals := (count_own_goals data Side.home : ℤ) }
    let away_result := { away_result with
                         own_goals := (count_own_goals data Side.away : ℤ) }
    let away_result := maybe_remove_goal h_rg away_result a_starters
    let home_result := maybe_remove_goal a_rg home_result h_starters
    let h_mirror := (lookupKey data.home.bonuses "mirror").getD {}
    let a_mirror := (lookupKey data.away.bonuses "mirror").getD {}
    let away_result := maybe_mirror_remove_goal h_mirror away_result a_starters
    let home_result := maybe_mirror_remove_goal a_mirror home_result h_starters
    { home := home_result, away := away_result,
      home_score_actual := data.home.score,
      away_score_actual := data.away.score }

-- ── Counterfactual mutation (`simulate_without_bonus`) ─────────────────

/-- The `boostOnePlayer` reversal loop: subtract a fixed `1.0` from the first
player entry whose `playerId` field equals the target, then `break`. -/
def boost_one_update (target : Option String) :
    List (String × PlayerInfo) → List (String × PlayerInfo)
  | [] => []
  | (k, p) :: rest =>
    if p.playerId = target then
      (k, { p with bonusRating := p.bonusRating - 1 }) :: rest
    else (k, p) :: boost_one_update target rest

/-- The `boostAllPlayers` / `nerfAllPlayers` reversal: subtract `delta` from
every player whose position is not goalkeeper. -/
def boost_all_update (delta : ℚ) (players : List (String × PlayerInfo)) :
    List (String × PlayerInfo) :=
  players.map (fun kp =>
    if kp.2.position ≠ POSITION_GK then
      (kp.1, { kp.2 with bonusRating := kp.2.bonusRating - delta })
    else kp)

/-- In-place update `players[pid]["bonusRating"] -= delta` of a dict entry. -/
def sub_bonus_rating (players : List (String × PlayerInfo)) (pid : String)
    (delta : ℚ) : List (String × PlayerInfo) :=
  players.map (fun kp =>
    if kp.1 = pid then (kp.1, { kp.2 with bonusRating := kp.2.bonusRating - delta })
    else kp)

/-- Python `del bonuses[k]`. -/
def del_bonus (bonuses : List (String × BonusInfo)) (k : String) :
    List (String × BonusInfo) :=
  bonuses.filter (fun kv => kv.1 ≠ k)

/-- Python `opp_bonuses["removeGoal"].pop("isCanceled", None)` when present. -/
def uncancel_remove_goal (bonuses : List (String × BonusInfo)) :
    List (String × BonusInfo) :=
  bonuses.map (fun kv =>
    if kv.1 = "removeGoal" then (kv.1, { kv.2 with isCanceled := false })
    else kv)

/-- The payload mutation performed by `simulate_without_bonus` once the
bonus is known to be present (`bonus_info` is its payload). -/
def without_bonus_data (data : MatchData) (side : Side) (bonus_type : String)
    (bonus_info : BonusInfo) : MatchData :=
  let team := data.team side
  let opp := data.team side.opp
  if bonus_type = "boostOnePlayer" then
    set_team data side
      { team with players := boost_one_update bonus_info.playerId team.players }
  else if bonus_type = "boostAllPlayers" ∨ bonus_type = "nerfAllPlayers" then
    let delta := bonus_info.bonusRating.getD (1/2)
    set_team data side
      { team with players := boost_all_update delta team.players }
  else if bonus_type = "nerfGoalkeeper" then
    let delta := bonus_info.bonusRating.getD (-1)
    let gk_pid := strVal ((opp.playersOnPitch.find? (fun i => i.slot == 1)).bind
      PitchSlot.playerId)
    match gk_pid with
    | some pid =>
      if (lookupKey opp.players pid).isSome then
        set_team data side.opp
          { opp with players := sub_bonus_rating opp.players pid delta }
      else data
    | none => data
  else if bonus_type = "removeGoal" then
    set_team data side { team with bonuses := del_bonus team.bonuses "removeGoal" }
  else if bonus_type = "blockTacticalSubs" then data
  else if bonus_type = "mirror" then
    let data2 := set_team data side
      { team with bonuses := del_bonus team.bonuses "mirror" }
    let opp2 := data2.team side.opp
    set_team data2 side.opp
      { opp2 with bonuses := uncancel_remove_goal opp2.bonuses }
  else data

/-- Python `simulate_without_bonus(raw_json_str, side, bonus_type)`. -/
def simulate_without_bonus (data : MatchData) (side : Side)
    (bonus_type : String) : MatchSimResult :=
  let team := data.team side
  match lookupKey team.bonuses bonus_type with
  | none => simulate_match data true
  | some bonus_info =>
    simulate_match (without_bonus_data data side bonus_type bonus_info) false

-- ── Concrete payloads used by witnesses and counterexamples ────────────

/-- Scenario-A attacker: a home forward with effective rating `6.0`. -/
def scenA_player : PlayerSlot :=
  { slot := 11, player_id := "fwdA", position := 4, rating := 6,
    bonus_rating := 0, goals_real := 0 }

/-- Scenario-A opposing wall: defender line `5.5`, goalkeeper `5.0`. -/
def scenA_avgs : LineAverages :=
  { gk := 5, def_ := 11/2 }

/-- A one-starter-per-side match: the home forward `h1` (rating 6,
one platform-recorded virtual goal, no real goal) faces the away
goalkeeper `a1` (rating 5); the away side plays a `removeGoal`
bonus targeting `h1`. -/
def sample_match : MatchData :=
  { home := { players := [("h1",
                { playerId := some "h1", position := 4, rating := some 6,
                  mpgGoals := 1 })],
              playersOnPitch := [{ slot := 1, playerId := some "h1" }] },
    away := { players := [("a1",
                { playerId := some "a1", position := 1, rating := some 5 })],
              playersOnPitch := [{ slot := 1, playerId := some "a1" }],
              bonuses := [("removeGoal", { playerId := some "h1" })] } }

-- ── C3 ────────────────────────────────────────────────────────────────

/-- C3: in the virtual-goal walk, when the attacker's penalized rating is
exactly equal to the opposing line average, the home side's crossing
condition (`≥`) succeeds while the away side's strict condition (`>`)
fails: the home attacker crosses the line, the away attacker does not. -/
theorem can_pass_line_tie (note avg : ℚ) (h : note = avg) :
    can_pass_line note avg true = true ∧ can_pass_line note avg false = false := by
  subst h
  simp [can_pass_line]

/-- C3 witness at `note = avg = 5`. -/
theorem can_pass_line_tie_witness :
    (5 : ℚ) = 5 ∧
      (can_pass_line 5 5 true = true ∧ can_pass_line 5 5 false = false) :=
  ⟨rfl, can_pass_line_tie 5 5 rfl⟩

-- ── C9 ────────────────────────────────────────────────────────────────

/-- C9: whenever a side parses to zero valid starters, `simulate_match`
returns (it is a total function, so no error is raised) a result carrying
only the recorded scores, with both simulated breakdowns left at their
all-zero defaults. -/
theorem simulate_match_degraded (data : MatchData) (u : Bool)
    (h : parse_team_starters data.home = [] ∨
         parse_team_starters data.away = []) :
    simulate_match data u =
      { home := {}, away := {},
        home_score_actual := data.home.score,
        away_score_actual := data.away.score } := by
  unfold simulate_match
  rcases h with h | h <;> simp [h, degraded_result]

/-- C9 witness: the empty payload parses to no starters on either side. -/
theorem simulate_match_degraded_witness :
    (parse_team_starters (MatchData.mk {} {}).home = [] ∨
       parse_team_starters (MatchData.mk {} {}).away = []) ∧
      simulate_match (MatchData.mk {} {}) true =
        { home := {}, away := {},
          home_score_actual := (MatchData.mk {} {}).home.score,
          away_score_actual := (MatchData.mk {} {}).away.score } :=
  ⟨Or.inl (by simp [parse_team_starters, sort_by_slot]),
   simulate_match_degraded _ true
     (Or.inl (by simp [parse_team_starters, sort_by_slot]))⟩

-- ── C6 ────────────────────────────────────────────────────────────────

/-- C6: a counterfactual run for a bonus kind that is absent from the
requested side's bonus set returns exactly the plain ground-truth
simulation of the unmodified payload (virtual goals trusted). -/
theorem without_absent_bonus (data : MatchData) (side : Side) (bt : String)
    (h : lookupKey (data.team side).bonuses bt = none) :
    simulate_without_bonus data side bt = simulate_match data true := by
  unfold simulate_without_bonus
  simp [h]

/-- C6 witness: the home side of `sample_match` used no bonus at all, so
removing `boostOnePlayer` from it is the ground-truth simulation. -/
theorem without_absent_bonus_witness :
    lookupKey (sample_match.team Side.home).bonuses "boostOnePlayer" = none ∧
      simulate_without_bonus sample_match Side.home "boostOnePlayer" =
        simulate_match sample_match true :=
  ⟨by simp [sample_match, MatchData.team, lookupKey],
   without_absent_bonus sample_match Side.home "boostOnePlayer"
     (by simp [sample_match, MatchData.team, lookupKey])⟩

-- ── C4 ────────────────────────────────────────────────────────────────

/-- C4 counterexample: in the code the first line's comparison is
unpenalized, so the scenario-A forward (rating 6.0, home) beats the
defender line (6.0 ≥ 5.5) and then the goalkeeper with only a 1.0-point
penalty (5.0 ≥ 5.0, home tie-break): the claim that no goal is scored is
false — the player scores. -/
theorem scenario_a_cex :
    simulate_virtual_goal scenA_player scenA_avgs true = true := by
  simp [simulate_virtual_goal, PlayerSlot.eligible_for_virtual,
    PlayerSlot.effective_rating, scenA_player, scenA_avgs, walk_lines,
    can_pass_line, LINES_BY_POS, LineAverages.get, POSITION_GK,
    POSITION_FWD, POSITION_MID, POSITION_DEF]
  norm_num

/-- C4 amended: the scenario-A home forward scores a virtual goal —
the defender-line comparison carries no penalty (6.0 ≥ 5.5) and the
goalkeeper comparison carries the 1.0-point penalty incurred by crossing
the first line (6.0 − 1.0 = 5.0 ≥ 5.0 by the home tie-break). -/
theorem scenario_a_amended :
    can_pass_line scenA_player.effective_rating scenA_avgs.def_ true = true ∧
      can_pass_line (scenA_player.effective_rating - 1) scenA_avgs.gk true = true ∧
      simulate_virtual_goal scenA_player scenA_avgs true = true := by
  refine ⟨?_, ?_, ?_⟩ <;>
    (simp [simulate_virtual_goal, PlayerSlot.eligible_for_virtual,
      PlayerSlot.effective_rating, scenA_player, scenA_avgs, walk_lines,
      can_pass_line, LINES_BY_POS, LineAverages.get, POSITION_GK,
      POSITION_FWD, POSITION_MID, POSITION_DEF]
     norm_num)

-- ── C1 ────────────────────────────────────────────────────────────────

/-- The penalty actually carried by the code's walk at the comparison of
line index `i` (0-based): none at the first line, then `1.0` after the
first crossing plus `0.5` per further crossing, i.e. `(i + 1) / 2`. -/
def code_penalty (i : Nat) : ℚ :=
  if i = 0 then 0 else (i + 1) / 2

/-- The penalty schedule asserted by the claim: a `1.0`-point penalty
already at the first line's comparison and an additional `0.5` per
subsequent line (`1.0`, `1.5`, `2.0`, `2.5`). -/
def claimed_penalty_walk (note : ℚ) (opp_avgs : LineAverages)
    (is_home : Bool) (lines : List String) : Bool :=
  (List.range lines.length).all fun i =>
    can_pass_line (note - (1 + (i : ℚ) / 2))
      (opp_avgs.get (lines.getD i "gk")) is_home

theorem code_penalty_succ (j : Nat) :
    code_penalty j + (if j = 0 then (1 : ℚ) else 1/2) = code_penalty (j + 1) := by
  cases j with
  | zero => norm_num [code_penalty]
  | succ k =>
    simp only [code_penalty, Nat.succ_ne_zero, if_false, Nat.add_eq_zero,
      and_false]
    push_cast
    ring

theorem walk_lines_eq_all (n : ℚ) (A : LineAverages) (h : Bool) :
    ∀ (ls : List String) (j : Nat),
      walk_lines n A h j (code_penalty j) ls =
        (List.range ls.length).all fun i =>
          can_pass_line (n - code_penalty (j + i)) (A.get (ls.getD i "gk")) h := by
  intro ls
  induction ls with
  | nil => intro j; simp [walk_lines]
  | cons l ls ih =>
    intro j
    simp only [walk_lines]
    rw [code_penalty_succ j]
    rw [List.length_cons, List.range_succ_eq_map, List.all_cons, List.all_map]
    cases hc : can_pass_line (n - code_penalty j) (A.get l) h with
    | false => simp [hc]
    | true =>
      rw [if_pos rfl, ih (j + 1)]
      simp only [Nat.add_zero, List.getD_cons_zero, hc, Bool.true_and]
      congr 1
      funext i
      have hji : j + 1 + i = j + (i + 1) := by omega
      simp [Function.comp, hji]

/-- C1 amended: in probabilistic mode, for every player the walk applies
NO penalty at the first line's comparison; the `1.0`-point penalty is
incurred only after crossing the first line and each further crossing
adds `0.5`, cumulatively and never reset, so the comparison at line
index `i ≥ 1` subtracts `(i + 1) / 2` points (second line `1.0`, third
`1.5`, fourth `2.0`). -/
theorem penalty_schedule (p : PlayerSlot) (avgs : LineAverages)
    (is_home : Bool) :
    simulate_virtual_goal p avgs is_home =
      (p.eligible_for_virtual &&
        ((List.range (LINES_BY_POS p.position).length).all fun i =>
          can_pass_line (p.effective_rating - code_penalty i)
            (avgs.get ((LINES_BY_POS p.position).getD i "gk")) is_home)) := by
  unfold simulate_virtual_goal
  cases he : p.eligible_for_virtual with
  | false => simp
  | true =>
    have h0 : (0 : ℚ) = code_penalty 0 := by simp [code_penalty]
    rw [Bool.true_and, h0, walk_lines_eq_all]
    simp

/-- The counterexample attacker of C1: a home forward with effective
rating `5.5` against defender line `5.0` and goalkeeper `4.0`. -/
def c1_player : PlayerSlot :=
  { slot := 10, player_id := "fwdB", position := 4, rating := 11/2,
    bonus_rating := 0, goals_real := 0 }

def c1_avgs : LineAverages :=
  { gk := 4, def_ := 5 }

/-- C1 counterexample: for this eligible attacker the code scores
(first comparison unpenalized: `5.5 ≥ 5.0`, then `4.5 ≥ 4.0`), while the
claimed schedule already fails at the first line (`5.5 − 1.0 = 4.5 ≥ 5.0`
is false): the walk does not subtract `1.0` at the first comparison. -/
theorem penalty_schedule_cex :
    c1_player.eligible_for_virtual = true ∧
      simulate_virtual_goal c1_player c1_avgs true = true ∧
      claimed_penalty_walk c1_player.effective_rating c1_avgs true
        (LINES_BY_POS c1_player.position) = false := by
  refine ⟨?_, ?_, ?_⟩ <;>
    (simp [simulate_virtual_goal, PlayerSlot.eligible_for_virtual,
      PlayerSlot.effective_rating, c1_player, c1_avgs, walk_lines,
      can_pass_line, LINES_BY_POS, LineAverages.get, POSITION_GK,
      POSITION_FWD, POSITION_MID, POSITION_DEF, claimed_penalty_walk,
      List.range_succ]
     norm_num)

-- ── C2 ────────────────────────────────────────────────────────────────

theorem pid_insert_mem {l : List String} {pid x : String}
    (hx : x ∈ pid_insert l pid) : x ∈ l ∨ x = pid := by
  unfold pid_insert at hx
  by_cases hmem : pid ∈ l
  · rw [if_pos hmem] at hx
    exact Or.inl hx
  · rw [if_neg hmem] at hx
    simpa using hx

theorem team_goals_step_pids (a : LineAverages) (h u : Bool)
    (r : TeamSimResult) (p : PlayerSlot) :
    (team_goals_step a h u r p).virtual_scorer_pids = r.virtual_scorer_pids ∨
      (team_goals_step a h u r p).virtual_scorer_pids =
        pid_insert r.virtual_scorer_pids p.player_id := by
  unfold team_goals_step
  by_cases h1 : p.goals_real > 0 <;> cases u <;>
    by_cases h2 : p.mpg_goals > 0 <;>
    cases h3 : simulate_virtual_goal p a h <;>
    simp [h1, h2, h3]

theorem foldl_step_pids (a : LineAverages) (h u : Bool) :
    ∀ (l : List PlayerSlot) (acc : TeamSimResult) (pid : String),
      pid ∈ (l.foldl (team_goals_step a h u) acc).virtual_scorer_pids →
      pid ∈ acc.virtual_scorer_pids ∨ ∃ p ∈ l, p.player_id = pid := by
  intro l
  induction l with
  | nil => intro acc pid hm; exact Or.inl hm
  | cons p l ih =>
    intro acc pid hm
    rw [List.foldl_cons] at hm
    rcases ih _ _ hm with hin | ⟨q, hq, he⟩
    · rcases team_goals_step_pids a h u acc p with he2 | he2 <;> rw [he2] at hin
      · exact Or.inl hin
      · rcases pid_insert_mem hin with hin2 | hin2
        · exact Or.inl hin2
        · exact Or.inr ⟨p, List.mem_cons_self p l, hin2.symm⟩
    · exact Or.inr ⟨q, List.mem_cons_of_mem p hq, he⟩

/-- Every recorded virtual scorer of `_simulate_team_goals` is one of the
attacking starters (in either mode). -/
theorem scorer_pids_in_starters (s : List PlayerSlot) (a : LineAverages)
    (h u : Bool) :
    ∀ pid ∈ (simulate_team_goals s a h u).virtual_scorer_pids,
      ∃ p ∈ s, p.player_id = pid := by
  intro pid hm
  rcases foldl_step_pids a h u s {} pid hm with hin | hex
  · simp [TeamSimResult.virtual_scorer_pids] at hin
  · exact hex

/-- C2 amended: when every recorded virtual scorer is one of the starters
(which `_simulate_team_goals` guarantees inside `simulate_match`), a goal
cancellation never touches the virtual-goal count or the scorer set: if
the first starter matching the target has at least one real goal the
real-goal count drops by one (floored at zero) and processing stops;
a targeted starter without a real goal stops processing with no change
(even when recorded among the virtual scorers); a target matching no
starter changes nothing. -/
theorem apply_remove_goal_spec (r : TeamSimResult)
    (starters : List PlayerSlot) (target : String)
    (hsub : ∀ pid ∈ r.virtual_scorer_pids, ∃ p ∈ starters, p.player_id = pid) :
    (apply_remove_goal r starters target).virtual_goals = r.virtual_goals ∧
    (apply_remove_goal r starters target).virtual_scorer_pids =
      r.virtual_scorer_pids ∧
    (apply_remove_goal r starters target).own_goals = r.own_goals ∧
    (apply_remove_goal r starters target).real_goals =
      (match starters.find? (fun p => p.player_id == target) with
       | some p => if p.goals_real > 0 then max 0 (r.real_goals - 1)
                   else r.real_goals
       | none => r.real_goals) := by
  unfold apply_remove_goal
  cases hf : starters.find? (fun p => p.player_id == target) with
  | some p => by_cases hg : p.goals_real > 0 <;> simp [hg]
  | none =>
    by_cases hmem : target ∈ r.virtual_scorer_pids
    · rcases hsub target hmem with ⟨p, hp, he⟩
      have hnone := List.find?_eq_none.mp hf p hp
      simp [he] at hnone
    · simp [hmem]

/-- C2 amended witness at an empty accumulator. -/
theorem apply_remove_goal_spec_witness :
    (∀ pid ∈ ({} : TeamSimResult).virtual_scorer_pids,
        ∃ p ∈ ([] : List PlayerSlot), p.player_id = pid) ∧
      ((apply_remove_goal {} [] "x").virtual_goals =
          ({} : TeamSimResult).virtual_goals ∧
        (apply_remove_goal {} [] "x").virtual_scorer_pids =
          ({} : TeamSimResult).virtual_scorer_pids ∧
        (apply_remove_goal {} [] "x").own_goals =
          ({} : TeamSimResult).own_goals ∧
        (apply_remove_goal {} [] "x").real_goals =
          (match ([] : List PlayerSlot).find? (fun p => p.player_id == "x") with
           | some p => if p.goals_real > 0 then
                         max 0 (({} : TeamSimResult).real_goals - 1)
                       else ({} : TeamSimResult).real_goals
           | none => ({} : TeamSimResult).real_goals)) :=
  ⟨by simp, apply_remove_goal_spec {} [] "x" (by simp)⟩

/-- C2 counterexample: in `sample_match` the away side's (non-neutralized)
`removeGoal` targets `h1`, a home starter with zero real goals that is
recorded among the home virtual scorers — yet the simulated home result
keeps its virtual goal and its scorer entry (the cancellation stopped at
the starter lookup), while the claim requires the virtual-goal count to
drop to zero and the scorer to be removed. -/
theorem remove_goal_cex :
    lookupKey sample_match.away.bonuses "removeGoal" =
      some { playerId := some "h1" } ∧
    (∃ p ∈ parse_team_starters sample_match.home,
        p.player_id = "h1" ∧ p.goals_real = 0) ∧
    (simulate_match sample_match true).home =
      { real_goals := 0, virtual_goals := 1, own_goals := 0,
        virtual_scorers := ["h1"], virtual_scorer_pids := ["h1"],
        remove_goal_applied := true, remove_goal_target := some "h1" } := by
  refine ⟨by simp [sample_match, lookupKey], ?_, ?_⟩
  · refine ⟨{ slot := 1, player_id := "h1", position := 4, rating := 6,
              bonus_rating := 0, goals_real := 0, mpg_goals := 1 }, ?_, rfl, rfl⟩
    simp [sample_match, parse_team_starters, sort_by_slot, insert_by_slot,
      pitch_to_slot, strVal, lookupKey]
  · simp [simulate_match, sample_match, parse_team_starters, sort_by_slot,
      insert_by_slot, pitch_to_slot, strVal, lookupKey, degraded_result,
      compute_line_averages, gk_line, avg_line, ratings_at,
      PlayerSlot.effective_rating, parse_remove_goal, simulate_team_goals,
      team_goals_step, pid_insert, scorer_label, apply_remove_goal,
      maybe_remove_goal, maybe_mirror_remove_goal, count_own_goals,
      MatchData.team, Side.opp, POSITION_GK, POSITION_DEF, POSITION_MID,
      POSITION_FWD]

-- ── C5 ────────────────────────────────────────────────────────────────

/-- All three goal counters of a team result are nonnegative. -/
def TeamSimResult.nonneg (r : TeamSimResult) : Prop :=
  0 ≤ r.real_goals ∧ 0 ≤ r.virtual_goals ∧ 0 ≤ r.own_goals

theorem team_goals_step_nonneg (a : LineAverages) (h u : Bool)
    (r : TeamSimResult) (p : PlayerSlot) (hr : r.nonneg) :
    (team_goals_step a h u r p).nonneg := by
  rcases hr with ⟨h1, h2, h3⟩
  unfold team_goals_step
  by_cases hg : p.goals_real > 0 <;> cases u <;>
    by_cases hm : p.mpg_goals > 0 <;>
    cases hv : simulate_virtual_goal p a h <;>
    simp [TeamSimResult.nonneg, hg, hm, hv] <;>
    constructor <;> omega

theorem simulate_team_goals_nonneg (s : List PlayerSlot) (a : LineAverages)
    (h u : Bool) : (simulate_team_goals s a h u).nonneg := by
  unfold simulate_team_goals
  have base : (({} : TeamSimResult)).nonneg := by
    simp [TeamSimResult.nonneg]
  generalize ({} : TeamSimResult) = acc at base ⊢
  induction s generalizing acc with
  | nil => simpa using base
  | cons p l ih =>
    rw [List.foldl_cons]
    exact ih _ (team_goals_step_nonneg a h u acc p base)

theorem apply_remove_goal_nonneg (r : TeamSimResult)
    (starters : List PlayerSlot) (target : String) (hr : r.nonneg) :
    (apply_remove_goal r starters target).nonneg := by
  rcases hr with ⟨h1, h2, h3⟩
  unfold apply_remove_goal
  cases hf : starters.find? (fun p => p.player_id == target) with
  | some p =>
    by_cases hg : p.goals_real > 0 <;>
      simp [TeamSimResult.nonneg, hg, h1, h2, h3]
  | none =>
    by_cases hmem : target ∈ r.virtual_scorer_pids <;>
      simp [TeamSimResult.nonneg, hmem, h1, h2, h3]

theorem maybe_remove_goal_nonneg (rg : Option String × Bool)
    (r : TeamSimResult) (s : List PlayerSlot) (hr : r.nonneg) :
    (maybe_remove_goal rg r s).nonneg := by
  unfold maybe_remove_goal
  cases hm : strVal rg.1 with
  | none => simpa using hr
  | some pid =>
    cases hb : rg.2
    · exact apply_remove_goal_nonneg r s pid hr
    · simpa using hr

theorem maybe_mirror_nonneg (m : BonusInfo) (r : TeamSimResult)
    (s : List PlayerSlot) (hr : r.nonneg) :
    (maybe_mirror_remove_goal m r s).nonneg := by
  cases hm : m.removeGoalPlayerId with
  | none => simpa [maybe_mirror_remove_goal, hm] using hr
  | some rpid =>
    cases hv : strVal rpid with
    | none => simpa [maybe_mirror_remove_goal, hm, hv] using hr
    | some pid =>
      simpa [maybe_mirror_remove_goal, hm, hv] using
        apply_remove_goal_nonneg r s pid hr

theorem set_own_goals_nonneg (r : TeamSimResult) (c : Nat) (hr : r.nonneg) :
    ({ r with own_goals := (c : ℤ) } : TeamSimResult).nonneg := by
  rcases hr with ⟨h1, h2, _⟩
  exact ⟨h1, h2, Int.natCast_nonneg c⟩

theorem simulate_match_nonneg (data : MatchData) (u : Bool) :
    (simulate_match data u).home.nonneg ∧ (simulate_match data u).away.nonneg := by
  unfold simulate_match
  dsimp only
  split
  · simp [degraded_result, TeamSimResult.nonneg]
  · constructor <;>
      exact maybe_mirror_nonneg _ _ _
        (maybe_remove_goal_nonneg _ _ _
          (set_own_goals_nonneg _ _ (simulate_team_goals_nonneg _ _ _ _)))

theorem iterate_remove_goal_nonneg (starters : List PlayerSlot)
    (target : String) :
    ∀ (n : Nat) (r : TeamSimResult), r.nonneg →
      ((fun x => apply_remove_goal x starters target)^[n] r).nonneg := by
  intro n
  induction n with
  | zero => intro r hr; simpa using hr
  | succ k ih =>
    intro r hr
    rw [Function.iterate_succ_apply]
    exact ih _ (apply_remove_goal_nonneg r starters target hr)

/-- C5: for every simulated match with at least one valid starter per
side, each side's total equals its real plus virtual plus own goals and
is nonnegative; moreover applying the goal-cancellation post-processing
any number of further times keeps the total nonnegative (the decrement
clamps at zero). -/
theorem total_goals_invariant (data : MatchData) (u : Bool) (n : Nat)
    (starters : List PlayerSlot) (target : String)
    (_hvalid : parse_team_starters data.home ≠ [] ∧
      parse_team_starters data.away ≠ []) :
    ((simulate_match data u).home.total_goals =
        (simulate_match data u).home.real_goals +
          (simulate_match data u).home.virtual_goals +
          (simulate_match data u).home.own_goals ∧
      0 ≤ (simulate_match data u).home.total_goals) ∧
    ((simulate_match data u).away.total_goals =
        (simulate_match data u).away.real_goals +
          (simulate_match data u).away.virtual_goals +
          (simulate_match data u).away.own_goals ∧
      0 ≤ (simulate_match data u).away.total_goals) ∧
    (0 ≤ ((fun r => apply_remove_goal r starters target)^[n]
        (simulate_match data u).home).total_goals ∧
      0 ≤ ((fun r => apply_remove_goal r starters target)^[n]
        (simulate_match data u).away).total_goals) := by
  obtain ⟨⟨hh1, hh2, hh3⟩, ⟨ha1, ha2, ha3⟩⟩ := simulate_match_nonneg data u
  have hih := iterate_remove_goal_nonneg starters target n
    (simulate_match data u).home ⟨hh1, hh2, hh3⟩
  have hia := iterate_remove_goal_nonneg starters target n
    (simulate_match data u).away ⟨ha1, ha2, ha3⟩
  rcases hih with ⟨hi1, hi2, hi3⟩
  rcases hia with ⟨hj1, hj2, hj3⟩
  refine ⟨⟨rfl, ?_⟩, ⟨rfl, ?_⟩, ?_, ?_⟩ <;>
    · unfold TeamSimResult.total_goals
      omega

/-- C5 witness on `sample_match` (one valid starter per side), with two
further cancellation applications. -/
theorem total_goals_invariant_witness :
    (parse_team_starters sample_match.home ≠ [] ∧
      parse_team_starters sample_match.away ≠ []) ∧
    (((simulate_match sample_match true).home.total_goals =
        (simulate_match sample_match true).home.real_goals +
          (simulate_match sample_match true).home.virtual_goals +
          (simulate_match sample_match true).home.own_goals ∧
      0 ≤ (simulate_match sample_match true).home.total_goals) ∧
    ((simulate_match sample_match true).away.total_goals =
        (simulate_match sample_match true).away.real_goals +
          (simulate_match sample_match true).away.virtual_goals +
          (simulate_match sample_match true).away.own_goals ∧
      0 ≤ (simulate_match sample_match true).away.total_goals) ∧
    (0 ≤ ((fun r => apply_remove_goal r [] "h1")^[2]
        (simulate_match sample_match true).home).total_goals ∧
      0 ≤ ((fun r => apply_remove_goal r [] "h1")^[2]
        (simulate_match sample_match true).away).total_goals)) :=
  ⟨⟨by simp [sample_match, parse_team_starters, sort_by_slot, insert_by_slot,
       pitch_to_slot, strVal, lookupKey],
    by simp [sample_match, parse_team_starters, sort_by_slot, insert_by_slot,
       pitch_to_slot, strVal, lookupKey]⟩,
   total_goals_invariant sample_match true 2 [] "h1"
     ⟨by simp [sample_match, parse_team_starters, sort_by_slot, insert_by_slot,
        pitch_to_slot, strVal, lookupKey],
      by simp [sample_match, parse_team_starters, sort_by_slot, insert_by_slot,
        pitch_to_slot, strVal, lookupKey]⟩⟩

-- ── C7 ────────────────────────────────────────────────────────────────

theorem boost_one_update_eq (target : Option String) :
    ∀ (l1 : List (String × PlayerInfo)) (k : String) (p : PlayerInfo)
      (l2 : List (String × PlayerInfo)),
      (∀ q ∈ l1, q.2.playerId ≠ target) → p.playerId = target →
      boost_one_update target (l1 ++ (k, p) :: l2) =
        l1 ++ (k, { p with bonusRating := p.bonusRating - 1 }) :: l2 := by
  intro l1
  induction l1 with
  | nil =>
    intro k p l2 _ hp
    simp [boost_one_update, hp]
  | cons q l1 ih =>
    intro k p l2 hq hp
    have hq1 : q.2.playerId ≠ target := hq q (List.mem_cons_self q l1)
    simp only [List.cons_append, boost_one_update, if_neg hq1, List.append_eq]
    rw [ih k p l2 (fun r hr => hq r (List.mem_cons_of_mem q hr)) hp]

/-- C7 amended: reversing `boostOnePlayer` subtracts a FIXED `1.0` — not
the delta stored in the bonus payload — from the bonus rating of the
first players-map entry whose `playerId` field equals the boost's target,
leaves every other entry unchanged, and re-simulates the mutated payload
in probabilistic mode. -/
theorem boost_one_reversal (data : MatchData) (side : Side) (bi : BonusInfo)
    (l1 : List (String × PlayerInfo)) (k : String) (p : PlayerInfo)
    (l2 : List (String × PlayerInfo))
    (hb : lookupKey (data.team side).bonuses "boostOnePlayer" = some bi)
    (hpl : (data.team side).players = l1 ++ (k, p) :: l2)
    (hl1 : ∀ q ∈ l1, q.2.playerId ≠ bi.playerId)
    (hp : p.playerId = bi.playerId) :
    simulate_without_bonus data side "boostOnePlayer" =
      simulate_match
        (set_team data side
          { data.team side with
            players :=
              l1 ++ (k, { p with bonusRating := p.bonusRating - 1 }) :: l2 })
        false := by
  unfold simulate_without_bonus
  simp only [hb]
  unfold without_bonus_data
  dsimp only
  rw [if_pos rfl, hpl, boost_one_update_eq bi.playerId l1 k p l2 hl1 hp]

/-- The targeted player of the C7 counterexample: bonus rating `3`, with
a `boostOnePlayer` payload whose stored delta is `2`. -/
def boost_player : PlayerInfo :=
  { playerId := some "h1", position := 4, rating := some 6, bonusRating := 3 }

def boost_bonus : BonusInfo :=
  { playerId := some "h1", bonusRating := some 2 }

def boost_match : MatchData :=
  { home := { players := [("h1", boost_player)],
              playersOnPitch := [{ slot := 1, playerId := some "h1" }],
              bonuses := [("boostOnePlayer", boost_bonus)] },
    away := { players :=
                [("a1", { playerId := some "a1", position := 1,
                          rating := some 5 })],
              playersOnPitch := [{ slot := 1, playerId := some "a1" }] } }

/-- C7 counterexample: the stored delta of the boost is `2` and the
targeted player's bonus rating is `3`, but the counterfactual mutation
leaves the player at `3 − 1 = 2`, not at the claimed `3 − 2 = 1`: the
code subtracts a hardcoded `1.0`, not the stored delta. -/
theorem boost_one_reversal_cex :
    lookupKey boost_match.home.bonuses "boostOnePlayer" = some boost_bonus ∧
    boost_bonus.bonusRating = some 2 ∧
    (lookupKey boost_match.home.players "h1").map PlayerInfo.bonusRating =
      some 3 ∧
    (lookupKey (without_bonus_data boost_match Side.home "boostOnePlayer"
          boost_bonus).home.players "h1").map PlayerInfo.bonusRating =
      some 2 ∧
    (2 : ℚ) ≠ 3 - 2 := by
  refine ⟨by simp [boost_match, lookupKey], rfl,
    by simp [boost_match, boost_player, lookupKey], ?_, by norm_num⟩
  simp [without_bonus_data, boost_match, boost_player, boost_bonus,
    boost_one_update, set_team, MatchData.team, Side.opp, lookupKey]
  norm_num

/-- C7 amended witness on `boost_match`. -/
theorem boost_one_reversal_witness :
    (lookupKey (boost_match.team Side.home).bonuses "boostOnePlayer" =
        some boost_bonus ∧
      (boost_match.team Side.home).players = [] ++ ("h1", boost_player) :: [] ∧
      (∀ q ∈ ([] : List (String × PlayerInfo)),
        q.2.playerId ≠ boost_bonus.playerId) ∧
      boost_player.playerId = boost_bonus.playerId) ∧
    simulate_without_bonus boost_match Side.home "boostOnePlayer" =
      simulate_match
        (set_team boost_match Side.home
          { boost_match.team Side.home with
            players :=
              [] ++ ("h1",
                { boost_player with
                  bonusRating := boost_player.bonusRating - 1 }) :: [] })
        false :=
  ⟨⟨by simp [boost_match, MatchData.team, lookupKey], rfl, by simp, rfl⟩,
   boost_one_reversal boost_match Side.home boost_bonus [] "h1" boost_player []
     (by simp [boost_match, MatchData.team, lookupKey]) rfl (by simp) rfl⟩

-- ── C8 ────────────────────────────────────────────────────────────────

/-- C8 amended: for a bonus kind outside the six modeled reversals the
counterfactual run is total (no error): when the kind is absent from the
requested side's bonus set it returns the ground-truth simulation, but
when the kind is present the payload passes through unchanged and the
PROBABILISTIC simulation of it is returned, which need not equal the
ground-truth simulation. -/
theorem unknown_bonus_behavior (data : MatchData) (side : Side) (bt : String)
    (hbt : bt ∉ ["boostOnePlayer", "boostAllPlayers", "nerfAllPlayers",
      "nerfGoalkeeper", "removeGoal", "mirror"]) :
    simulate_without_bonus data side bt =
      (match lookupKey (data.team side).bonuses bt with
       | none => simulate_match data true
       | some _ => simulate_match data false) := by
  obtain ⟨h1, h2, h3, h4, h5, h6⟩ :
      bt ≠ "boostOnePlayer" ∧ bt ≠ "boostAllPlayers" ∧
        bt ≠ "nerfAllPlayers" ∧ bt ≠ "nerfGoalkeeper" ∧
        bt ≠ "removeGoal" ∧ bt ≠ "mirror" := by
    simpa using hbt
  unfold simulate_without_bonus
  dsimp only
  cases hl : lookupKey (data.team side).bonuses bt with
  | none => rfl
  | some bi =>
    have hid : without_bonus_data data side bt bi = data := by
      by_cases hbts : bt = "blockTacticalSubs" <;>
        simp [without_bonus_data, h1, h2, h3, h4, h5, h6, hbts]
    dsimp only
    rw [hid]

/-- A match where the home side used `fourStrikers` (a bonus with no
modeled reversal): the home scorer `h1` carries one platform-recorded
virtual goal but is below the probabilistic eligibility threshold
(effective rating `4.5 < 5`). -/
def unknown_bonus_match : MatchData :=
  { home := { players := [("h1",
                { playerId := some "h1", position := 4, rating := some (9/2),
                  mpgGoals := 1 })],
              playersOnPitch := [{ slot := 1, playerId := some "h1" }],
              bonuses := [("fourStrikers", {})] },
    away := { players := [("a1",
                { playerId := some "a1", position := 1, rating := some 5 })],
              playersOnPitch := [{ slot := 1, playerId := some "a1" }] } }

/-- C8 counterexample: `fourStrikers` is present in the home bonus set
and has no modeled reversal, yet the counterfactual run does NOT return
the ground-truth simulation: it re-simulates probabilistically (home
virtual goals `0`) while ground truth credits the recorded virtual goal
(`1`). -/
theorem unknown_bonus_cex :
    lookupKey unknown_bonus_match.home.bonuses "fourStrikers" = some {} ∧
    (simulate_without_bonus unknown_bonus_match Side.home
        "fourStrikers").home.virtual_goals = 0 ∧
    (simulate_match unknown_bonus_match true).home.virtual_goals = 1 ∧
    simulate_without_bonus unknown_bonus_match Side.home "fourStrikers" ≠
      simulate_match unknown_bonus_match true := by
  have hlt : ¬ ((5 : ℚ) ≤ 9/2) := by norm_num
  have h1 : (simulate_without_bonus unknown_bonus_match Side.home
      "fourStrikers").home.virtual_goals = 0 := by
    simp [simulate_without_bonus, without_bonus_data, unknown_bonus_match,
      lookupKey, MatchData.team, Side.opp, set_team, simulate_match,
      parse_team_starters, sort_by_slot, insert_by_slot, pitch_to_slot,
      strVal, degraded_result, compute_line_averages, gk_line, avg_line,
      ratings_at, PlayerSlot.effective_rating, PlayerSlot.eligible_for_virtual,
      simulate_virtual_goal, parse_remove_goal, simulate_team_goals,
      team_goals_step, pid_insert, scorer_label, apply_remove_goal,
      maybe_remove_goal, maybe_mirror_remove_goal, count_own_goals,
      POSITION_GK, POSITION_DEF, POSITION_MID, POSITION_FWD, hlt]
  have h2 : (simulate_match unknown_bonus_match true).home.virtual_goals = 1 := by
    simp [simulate_match, unknown_bonus_match, parse_team_starters,
      sort_by_slot, insert_by_slot, pitch_to_slot, strVal, lookupKey,
      degraded_result, compute_line_averages, gk_line, avg_line, ratings_at,
      PlayerSlot.effective_rating, parse_remove_goal, simulate_team_goals,
      team_goals_step, pid_insert, scorer_label, apply_remove_goal,
      maybe_remove_goal, maybe_mirror_remove_goal, count_own_goals,
      MatchData.team, Side.opp, POSITION_GK, POSITION_DEF, POSITION_MID,
      POSITION_FWD]
  refine ⟨by simp [unknown_bonus_match, lookupKey], h1, h2, ?_⟩
  intro heq
  rw [heq, h2] at h1
  exact absurd h1 one_ne_zero

/-- C8 amended witness on `unknown_bonus_match`. -/
theorem unknown_bonus_behavior_witness :
    ("fourStrikers" ∉ ["boostOnePlayer", "boostAllPlayers", "nerfAllPlayers",
        "nerfGoalkeeper", "removeGoal", "mirror"]) ∧
    simulate_without_bonus unknown_bonus_match Side.home "fourStrikers" =
      (match lookupKey (unknown_bonus_match.team Side.home).bonuses
          "fourStrikers" with
       | none => simulate_match unknown_bonus_match true
       | some _ => simulate_match unknown_bonus_match false) :=
  ⟨by simp,
   unknown_bonus_behavior unknown_bonus_match Side.home "fourStrikers"
     (by simp)⟩

-- ── C10 ───────────────────────────────────────────────────────────────

theorem gk_filter_head (l : List PlayerSlot) (g : PlayerSlot)
    (hsort : List.Pairwise (fun a b => a.slot < b.slot) l)
    (hg : g ∈ l) (hgk : g.position = POSITION_GK)
    (hmin : ∀ p ∈ l, p.position = POSITION_GK → g.slot ≤ p.slot) :
    ∃ rest, l.filter (fun p => p.position == POSITION_GK) = g :: rest := by
  induction l with
  | nil => cases hg
  | cons x l ih =>
    rcases List.pairwise_cons.mp hsort with ⟨hx, hsort2⟩
    by_cases hxp : x.position = POSITION_GK
    · have hxg : x = g := by
        rcases List.mem_cons.mp hg with he | hm
        · exact he.symm
        · exact absurd (hx g hm)
            (not_lt.mpr (hmin x (List.mem_cons_self x l) hxp))
      refine ⟨l.filter (fun p => p.position == POSITION_GK), ?_⟩
      rw [List.filter_cons_of_pos (by simp [hxp])]
      rw [hxg]
    · have hgm : g ∈ l := by
        rcases List.mem_cons.mp hg with he | hm
        · exact absurd (he ▸ hgk) hxp
        · exact hm
      rcases ih hsort2 hgm
          (fun p hp hp1 => hmin p (List.mem_cons_of_mem x hp) hp1) with
        ⟨rest, hrest⟩
      refine ⟨rest, ?_⟩
      rw [List.filter_cons_of_neg (by simp [hxp])]
      exact hrest

theorem gk_line_eq (l : List PlayerSlot) (g : PlayerSlot)
    (hsort : List.Pairwise (fun a b => a.slot < b.slot) l)
    (hg : g ∈ l) (hgk : g.position = POSITION_GK)
    (hmin : ∀ p ∈ l, p.position = POSITION_GK → g.slot ≤ p.slot) :
    gk_line l = g.effective_rating := by
  rcases gk_filter_head l g hsort hg hgk hmin with ⟨rest, hrest⟩
  simp [gk_line, ratings_at, hrest]

theorem ratings_at_filter (l : List PlayerSlot) (g : PlayerSlot) (k : Nat)
    (hk : k ≠ POSITION_GK) :
    ratings_at (l.filter (fun p => (p.position != POSITION_GK) || (p == g))) k =
      ratings_at l k := by
  unfold ratings_at
  rw [List.filter_filter]
  congr 1
  apply List.filter_congr
  intro p _
  by_cases hp : p.position = k
  · simp [hp, hk]
  · simp [hp]

/-- C10: when a parsed lineup (sorted by slot, slots distinct) contains
more than one goalkeeper among slots 1-11, the goalkeeper wall value is
the effective rating of the goalkeeper `g` in the lowest slot alone, and
deleting every other goalkeeper from the lineup changes none of the four
line values: the extra goalkeepers contribute to no line average at all
(not to the goalkeeper line, nor to any field line). -/
theorem multi_goalkeeper_lines (l : List PlayerSlot) (g : PlayerSlot)
    (hsort : List.Pairwise (fun a b => a.slot < b.slot) l)
    (hg : g ∈ l) (hgk : g.position = POSITION_GK)
    (hmin : ∀ p ∈ l, p.position = POSITION_GK → g.slot ≤ p.slot) :
    (compute_line_averages l).gk = g.effective_rating ∧
    compute_line_averages l =
      compute_line_averages
        (l.filter (fun p => (p.position != POSITION_GK) || (p == g))) := by
  have hgk1 := gk_line_eq l g hsort hg hgk hmin
  have hsort2 :=
    hsort.filter (fun p => (p.position != POSITION_GK) || (p == g))
  have hg2 : g ∈ l.filter (fun p => (p.position != POSITION_GK) || (p == g)) :=
    List.mem_filter.mpr ⟨hg, by simp⟩
  have hmin2 : ∀ p ∈ l.filter (fun p => (p.position != POSITION_GK) || (p == g)),
      p.position = POSITION_GK → g.slot ≤ p.slot :=
    fun p hp hp1 => hmin p (List.mem_of_mem_filter hp) hp1
  have hgk2 := gk_line_eq _ g hsort2 hg2 hgk hmin2
  refine ⟨by simpa [compute_line_averages] using hgk1, ?_⟩
  unfold compute_line_averages
  simp only [LineAverages.mk.injEq]
  refine ⟨hgk1.trans hgk2.symm, ?_, ?_, ?_⟩ <;>
    · unfold avg_line
      rw [ratings_at_filter l g _ (by decide)]

/-- A lineup with two goalkeepers: `g1` in slot 1 (rating 6) and `g3` in
slot 3 (rating 3), with a defender in slot 2. -/
def gk_a : PlayerSlot :=
  { slot := 1, player_id := "g1", position := 1, rating := 6,
    bonus_rating := 0, goals_real := 0 }

def def_b : PlayerSlot :=
  { slot := 2, player_id := "d2", position := 2, rating := 4,
    bonus_rating := 0, goals_real := 0 }

def gk_c : PlayerSlot :=
  { slot := 3, player_id := "g3", position := 1, rating := 3,
    bonus_rating := 0, goals_real := 0 }

def two_gk_lineup : List PlayerSlot := [gk_a, def_b, gk_c]

/-- C10 witness on the two-goalkeeper lineup. -/
theorem multi_goalkeeper_lines_witness :
    (List.Pairwise (fun a b => a.slot < b.slot) two_gk_lineup ∧
      gk_a ∈ two_gk_lineup ∧ gk_a.position = POSITION_GK ∧
      (∀ p ∈ two_gk_lineup, p.position = POSITION_GK →
        gk_a.slot ≤ p.slot)) ∧
    ((compute_line_averages two_gk_lineup).gk = gk_a.effective_rating ∧
      compute_line_averages two_gk_lineup =
        compute_line_averages
          (two_gk_lineup.filter
            (fun p => (p.position != POSITION_GK) || (p == gk_a)))) :=
  ⟨⟨by simp [two_gk_lineup, gk_a, def_b, gk_c],
    by simp [two_gk_lineup],
    rfl,
    by
      intro p hp _
      rcases List.mem_cons.mp hp with he | hp2
      · simp [he, gk_a]
      · rcases List.mem_cons.mp hp2 with he | hp3
        · simp [he, gk_a, def_b]
        · rcases List.mem_cons.mp hp3 with he | hp4
          · simp [he, gk_a, gk_c]
          · cases hp4⟩,
   multi_goalkeeper_lines two_gk_lineup gk_a
     (by simp [two_gk_lineup, gk_a, def_b, gk_c])
     (by simp [two_gk_lineup])
     rfl
     (by
       intro p hp _
       rcases List.mem_cons.mp hp with he | hp2
       · simp [he, gk_a]
       · rcases List.mem_cons.mp hp2 with he | hp3
         · simp [he, gk_a, def_b]
         · rcases List.mem_cons.mp hp3 with he | hp4
           · simp [he, gk_a, gk_c]
           · cases hp4)⟩
